import Mathlib

/-!
Verification development for the `workspace_one_python` client library.

The development shallowly embeds the library's authentication subsystem
(`auth/workspace_one_auth.py`), the environment configuration
(`environment/aw_environment.py`), and the request dispatchers
(`mdm/mdm.py`, `system/system.py`, `mam/mam.py`).

External collaborators (the `cryptography` PKCS#12/PKCS#7 primitives, the
filesystem, and the HTTP transport of `requests`) are modelled as explicit
parameters (`CryptoBackend`, transport functions), while everything the
repository itself computes — URL canonicalisation via `urllib.parse.urlparse`,
base64 encoding of the signature container, header assembly, the
success/error contract of `_send_request`, the retry configuration — is
embedded as executable Lean definitions.
-/

/-! ## Bytes and UTF-8 encoding

Python's `str.encode("utf-8")` / `str.encode()` modelled on Unicode
codepoints; bytes are natural numbers below 256. -/

/-- UTF-8 encoding of a single Unicode codepoint, as in CPython's
`str.encode("utf-8")`. -/
def utf8BytesOfChar (c : Char) : List Nat :=
  let n := c.toNat
  if n < 0x80 then [n]
  else if n < 0x800 then [0xC0 + n / 64, 0x80 + n % 64]
  else if n < 0x10000 then [0xE0 + n / 4096, 0x80 + n / 64 % 64, 0x80 + n % 64]
  else [0xF0 + n / 262144, 0x80 + n / 4096 % 64, 0x80 + n / 64 % 64, 0x80 + n % 64]

/-- UTF-8 encoding of a Python string (`data.encode("utf-8")`,
`password.encode()`). -/
def strUtf8 (s : String) : List Nat :=
  (s.toList.map utf8BytesOfChar).flatten

/-! ## Base64 encoding

Model of `base64.b64encode(...).decode()` from the Python standard
library, used by `get_cmsurl_header` on the DER-encoded CMS container. -/

/-- The standard base64 alphabet. -/
def base64Alphabet : List Char :=
  "ABCDEFGHIJKLMNOPQRSTUVWXYZabcdefghijklmnopqrstuvwxyz0123456789+/".toList

/-- The base64 digit for a 6-bit value. -/
def b64Char (n : Nat) : Char :=
  base64Alphabet.getD n 'A'

/-- Base64-encode a byte list, three bytes to four characters, with
trailing padding. -/
def b64EncodeChars : List Nat → List Char
  | [] => []
  | [a] => [b64Char (a / 4), b64Char (a % 4 * 16), '=', '=']
  | [a, b] => [b64Char (a / 4), b64Char (a % 4 * 16 + b / 16), b64Char (b % 16 * 4), '=']
  | a :: b :: c :: rest =>
      b64Char (a / 4) :: b64Char (a % 4 * 16 + b / 16) ::
      b64Char (b % 16 * 4 + c / 64) :: b64Char (c % 64) :: b64EncodeChars rest

/-- Model of `base64.b64encode(data).decode()`. -/
def base64Encode (bytes : List Nat) : String :=
  (b64EncodeChars bytes).asString

/-! ## URL parsing

Embedding of the path-relevant behavior of CPython's
`urllib.parse.urlparse` (as called in `get_cmsurl_header`): WHATWG
C0-control/space left-strip, removal of unsafe bytes, scheme split,
netloc split after `//`, fragment split at the first `#`, query split at
the first `?`, and the params split at the `;` of the last path segment
for schemes that use parameters. Host-bracket validation (which raises
for malformed IPv6 netlocs) is not modelled. -/

/-- Characters allowed in a URL scheme after the first (CPython
`scheme_chars`). -/
def isSchemeChar (c : Char) : Bool :=
  c.isAlphanum || c == '+' || c == '-' || c == '.'

/-- CPython `url.lstrip(_WHATWG_C0_CONTROL_OR_SPACE)`. -/
def pyLstripControlOrSpace (l : List Char) : List Char :=
  l.dropWhile (fun c => c.toNat ≤ 32)

/-- CPython removal of `_UNSAFE_URL_BYTES_TO_REMOVE` (tab, CR, LF). -/
def pyRemoveUnsafeBytes (l : List Char) : List Char :=
  l.filter (fun c => !(c == '\t' || c == '\r' || c == '\n'))

/-- Split off the scheme: `url.find(':')` with a leading ASCII letter and
scheme characters before the colon; the scheme is lowercased. Returns
(scheme, rest). -/
def splitScheme (url : List Char) : List Char × List Char :=
  match url.findIdx? (fun c => c == ':') with
  | some i =>
      if 0 < i ∧ (url.headD ' ').isAlpha ∧ (url.take i).all isSchemeChar then
        ((url.take i).map Char.toLower, url.drop (i + 1))
      else ([], url)
  | none => ([], url)

/-- CPython `_splitnetloc` (after the leading `//` has been dropped):
the netloc extends to the first `/`, `?` or `#`. -/
def splitNetloc (url : List Char) : List Char × List Char :=
  match url.findIdx? (fun c => c == '/' || c == '?' || c == '#') with
  | some i => (url.take i, url.drop i)
  | none => (url, [])

/-- Python `str.partition(sep)` restricted to the two interesting parts:
(before, after); when the separator is absent, (whole, empty). -/
def pyPartition (sep : Char) (l : List Char) : List Char × List Char :=
  match l.findIdx? (fun c => c == sep) with
  | some i => (l.take i, l.drop (i + 1))
  | none => (l, [])

/-- The result of `urllib.parse.urlsplit`. -/
structure SplitResult where
  scheme : String
  netloc : String
  path : String
  query : String
  fragment : String
deriving Repr, DecidableEq

/-- Model of `urllib.parse.urlsplit(url)` with default arguments. -/
def urlsplit (url : String) : SplitResult :=
  let u0 := pyRemoveUnsafeBytes (pyLstripControlOrSpace url.toList)
  let su := splitScheme u0
  let nu := if su.2.take 2 = ['/', '/'] then splitNetloc (su.2.drop 2) else ([], su.2)
  let uf := pyPartition '#' nu.2
  let pq := pyPartition '?' uf.1
  { scheme := su.1.asString, netloc := nu.1.asString, path := pq.1.asString,
    query := pq.2.asString, fragment := uf.2.asString }

/-- CPython `uses_params`: schemes for which `urlparse` splits `;params`
off the last path segment. -/
def uses_params : List String :=
  ["", "ftp", "hdl", "prospero", "http", "imap", "https", "shttp", "rtsp",
   "rtspu", "sip", "sips", "mms", "sftp", "tel"]

/-- Index of the last `/` in a character list (Python `str.rfind('/')`),
or `none`. -/
def pyRfindSlash (l : List Char) : Option Nat :=
  (l.reverse.findIdx? (fun c => c == '/')).map (fun j => l.length - 1 - j)

/-- CPython `_splitparams`: split at the first `;` at or after the last
`/`. Returns (path, params). -/
def splitparams (path : List Char) : List Char × List Char :=
  match pyRfindSlash path with
  | some k =>
      match (path.drop k).findIdx? (fun c => c == ';') with
      | some j => (path.take (k + j), path.drop (k + j + 1))
      | none => (path, [])
  | none =>
      match path.findIdx? (fun c => c == ';') with
      | some i => (path.take i, path.drop (i + 1))
      | none => (path, [])

/-- The result of `urllib.parse.urlparse`. -/
structure ParseResult where
  scheme : String
  netloc : String
  path : String
  params : String
  query : String
  fragment : String
deriving Repr, DecidableEq

/-- Model of `urllib.parse.urlparse(url)` with default arguments, as
called on line 60 of `workspace_one_auth.py`. -/
def urlparse (url : String) : ParseResult :=
  let s := urlsplit url
  if uses_params.contains s.scheme && s.path.toList.contains ';' then
    let pp := splitparams s.path.toList
    { scheme := s.scheme, netloc := s.netloc, path := pp.1.asString,
      params := pp.2.asString, query := s.query, fragment := s.fragment }
  else
    { scheme := s.scheme, netloc := s.netloc, path := s.path, params := "",
      query := s.query, fragment := s.fragment }

/-! ## The Certificate-Signing Authenticator

Embedding of `auth/workspace_one_auth.py`. The external
`cryptography` primitives (file reading, `pkcs12.load_key_and_certificates`,
`PKCS7SignatureBuilder`) are modelled by a `CryptoBackend`; private keys
and certificates are abstract handles (`Nat`). Exceptions thrown by the
primitives are modelled by `Except String`. -/

/-- Digest algorithms of `cryptography.hazmat.primitives.hashes` that the
signing backend could be asked for. The source always passes SHA-512. -/
inductive HashAlg where
  | sha1
  | sha256
  | sha512
deriving Repr, DecidableEq

/-- Output encodings of `cryptography.hazmat.primitives.serialization.Encoding`.
The source always passes DER. -/
inductive SigEncoding where
  | der
  | pem
  | smime
deriving Repr, DecidableEq

/-- Options of `pkcs7.PKCS7Options`. The source always passes
`[DetachedSignature]`. -/
inductive PKCS7Option where
  | detachedSignature
  | binary
  | text
  | noAttributes
  | noCerts
deriving Repr, DecidableEq

/-- The external primitives used by `WorkspaceOneAuth`: reading the
certificate file from disk, `pkcs12.load_key_and_certificates` (returning
optional private key, optional certificate and optional additional
certificates), and the PKCS7 signature builder pipeline
`set_data / add_signer / sign`. An `Except.error` models a raised
exception. -/
structure CryptoBackend where
  readFile : String → Except String (List Nat)
  load_key_and_certificates :
    List Nat → List Nat → Except String (Option Nat × Option Nat × Option (List Nat))
  pkcs7_sign :
    Nat → Nat → HashAlg → List Nat → SigEncoding → List PKCS7Option → Except String (List Nat)

/-- The exception type raised by `_load_p12_cert` (class `CMSURLError`). -/
structure CMSURLError where
  message : String
deriving Repr, DecidableEq

/-- The state of a `WorkspaceOneAuth` object: `__init__` stores
`cert_path` and `cert_pw`; `from_memory` additionally sets `cert_bytes`
and `use_memory_cert` (absent attributes modelled by the defaults read
back via `getattr(self, "use_memory_cert", False)`). -/
structure WorkspaceOneAuth where
  cert_path : String
  cert_pw : String
  cert_bytes : List Nat
  use_memory_cert : Bool
deriving Repr, DecidableEq

/-- `WorkspaceOneAuth.__init__(cert_path, cert_pw)`: stores the
credentials unexamined; the logger argument is elided. -/
def WorkspaceOneAuth.init (cert_path : String) (cert_pw : String) : WorkspaceOneAuth :=
  { cert_path := cert_path, cert_pw := cert_pw, cert_bytes := [], use_memory_cert := false }

/-- `WorkspaceOneAuth.from_memory(cert_bytes, cert_pw)`. -/
def WorkspaceOneAuth.from_memory (cert_bytes : List Nat) (cert_pw : String) : WorkspaceOneAuth :=
  { cert_path := "", cert_pw := cert_pw, cert_bytes := cert_bytes, use_memory_cert := true }

/-- `WorkspaceOneAuth._load_p12_cert(p12_path, password)`: read the
PKCS#12 bytes (from memory when `use_memory_cert`, else from disk),
decode them with the password; any exception in the `try` block is
re-raised as a `CMSURLError`. The third component of
`load_key_and_certificates` (additional certificates) is discarded. -/
def WorkspaceOneAuth.load_p12_cert (self : WorkspaceOneAuth) (B : CryptoBackend)
    (p12_path : String) (password : String) :
    Except CMSURLError (Option Nat × Option Nat) :=
  let p12_data : Except String (List Nat) :=
    if self.use_memory_cert then Except.ok self.cert_bytes else B.readFile p12_path
  match p12_data with
  | Except.error e => Except.error { message := "Failed to load PKCS#12 certificate: " ++ e }
  | Except.ok d =>
      match B.load_key_and_certificates d (strUtf8 password) with
      | Except.error e =>
          Except.error { message := "Failed to load PKCS#12 certificate: " ++ e }
      | Except.ok (private_key, certificate, _) => Except.ok (private_key, certificate)

/-- `WorkspaceOneAuth._sign_data(private_key, certificate, data)`:
UTF-8 encode the data, build a PKCS7 signature with the signer's
certificate and private key under SHA-512, and produce the DER-encoded
detached signature; any exception yields `None`. -/
def WorkspaceOneAuth.sign_data (B : CryptoBackend) (private_key : Nat) (certificate : Nat)
    (data : String) : Option (List Nat) :=
  let data_bytes := strUtf8 data
  match B.pkcs7_sign private_key certificate HashAlg.sha512 data_bytes
      SigEncoding.der [PKCS7Option.detachedSignature] with
  | Except.ok cms_der => some cms_der
  | Except.error _ => none

/-- `WorkspaceOneAuth.get_cmsurl_header(url)`: load key and certificate
(returning `None` on `CMSURLError` or on a missing key/certificate),
take the path component of the parsed URL as the canonical signing
input, sign it, and return the base64-encoded container behind the
literal tag. -/
def WorkspaceOneAuth.get_cmsurl_header (self : WorkspaceOneAuth) (B : CryptoBackend)
    (url : String) : Option String :=
  let p12_cert_path := self.cert_path
  let cert_password := self.cert_pw
  match self.load_p12_cert B p12_cert_path cert_password with
  | Except.error _ => none
  | Except.ok (private_key, certificate) =>
      match private_key, certificate with
      | some pk, some cert =>
          let canonical_path := (urlparse url).path
          match WorkspaceOneAuth.sign_data B pk cert canonical_path with
          | none => none
          | some cms_container =>
              let encoded_signature := base64Encode cms_container
              some ("CMSURL`1 " ++ encoded_signature)
      | _, _ => none

/-! ## Environment configuration

Embedding of `environment/aw_environment.py`. -/

/-- Python's `ValueError`. -/
structure ValueError where
  message : String
deriving Repr, DecidableEq

/-- The state of an `AWEnvironment` object after a successful
`__init__`. -/
structure AWEnvironment where
  api_url : String
  tenant_code : String
  parent_og : Option String
deriving Repr, DecidableEq

/-- `AWEnvironment.__init__(api_url, tenant_code, parent_og=None)`:
raises `ValueError` when `api_url` or `tenant_code` is falsy (for these
string parameters: empty); otherwise stores all three arguments
unchanged. -/
def AWEnvironment.init (api_url : String) (tenant_code : String)
    (parent_og : Option String) : Except ValueError AWEnvironment :=
  if api_url = "" ∨ tenant_code = "" then
    Except.error { message := "Both \x27api_url\x27 and \x27tenant_code\x27 are required." }
  else
    Except.ok { api_url := api_url, tenant_code := tenant_code, parent_og := parent_og }

/-! ## Python attribute access

`System.__init__` reads `self.aw_environment.environment`, an attribute
no code path of `AWEnvironment` ever assigns. Attribute access is
modelled by a lookup in the object's attribute dictionary; a missed
lookup is Python's `AttributeError`. -/

/-- A Python attribute value, as far as the embedding needs to
distinguish them. -/
inductive PyVal where
  | str (s : String)
  | pyNone
  | loggerObj
deriving Repr, DecidableEq

/-- Python's `AttributeError`, carrying the missing attribute name. -/
structure AttributeError where
  name : String
deriving Repr, DecidableEq

/-- The attribute dictionary of an `AWEnvironment` object: exactly the
attributes its `__init__` assigns (`logger`, `api_url`, `tenant_code`,
`parent_og`). -/
def AWEnvironment.objectDict (e : AWEnvironment) : List (String × PyVal) :=
  [("logger", PyVal.loggerObj),
   ("api_url", PyVal.str e.api_url),
   ("tenant_code", PyVal.str e.tenant_code),
   ("parent_og", match e.parent_og with | some s => PyVal.str s | none => PyVal.pyNone)]

/-- Attribute lookup on an attribute dictionary; missing attributes
raise `AttributeError`. -/
def pyGetattr (dict : List (String × PyVal)) (name : String) :
    Except AttributeError PyVal :=
  match dict.find? (fun kv => kv.1 == name) with
  | some kv => Except.ok kv.2
  | none => Except.error { name := name }

/-! ## Request Dispatchers

Embedding of `_get_headers` / `_send_request` of `mdm/mdm.py`,
`system/system.py` and `mam/mam.py`. The HTTP transport is a parameter;
the JSON parser (`response.json()`) and the rendering of a
`requests` exception (`str(e)`, used by MAM) are parameters as well.
`raise_for_status` raises `HTTPError` exactly when the status code is in
[400, 600); for such an error `e.response` is the response, so
`getattr(e.response, "status_code", None)` is the status; for a
transport-level failure `e.response` is `None`. -/

/-- A JSON value, the result type of `response.json()`. -/
inductive JsonVal where
  | obj (fields : List (String × JsonVal))
  | arr (elems : List JsonVal)
  | str (s : String)
  | num (n : Int)
  | bool (b : Bool)
  | null

/-- The structured request error of
`workspace_one_python.exceptions.api_request_error`.

Modelled from the spec: the module `exceptions/api_request_error.py` is
not among the provided sources; per the spec a request error is "a
structured exception/result carrying status code and message", raised in
the sources as `APIRequestError(message, status_code=...)` or, in MAM,
as `APIRequestError(message)` alone — so the constructor takes a message
and an optional status code defaulting to `None`. -/
structure APIRequestError where
  message : String
  status_code : Option Nat
deriving Repr, DecidableEq

/-- One outbound HTTP request as handed to `requests.request` /
`Session.request`. -/
structure APIRequest where
  method : String
  url : String
  headers : List (String × Option String)
  json_body : Option JsonVal
  files : Option (List (String × List Nat))
  timeout : Nat

/-- Outcome of one physical HTTP attempt: a response with status code
and body text, or a transport-level failure with no response. -/
inductive HTTPOutcome where
  | response (status_code : Nat) (text : String)
  | connectionError

/-- `MDM._get_headers(url)`. -/
def MDM.get_headers (B : CryptoBackend) (auth : WorkspaceOneAuth)
    (env : AWEnvironment) (url : String) : List (String × Option String) :=
  [("Authorization", WorkspaceOneAuth.get_cmsurl_header auth B url),
   ("aw-tenant-code", some env.tenant_code),
   ("Content-Type", some "application/json")]

/-- `MDM._send_request(method, url, data)`: build headers, issue exactly
one HTTP request with timeout 90, return the parsed body on success
(empty dict for an empty body), raise `APIRequestError` with the status
code when available otherwise. The first component lists the requests
handed to the transport. -/
def MDM.send_request (B : CryptoBackend) (auth : WorkspaceOneAuth) (env : AWEnvironment)
    (transport : APIRequest → HTTPOutcome) (parse_json : String → JsonVal)
    (method : String) (url : String) (data : Option JsonVal) :
    List APIRequest × Except APIRequestError JsonVal :=
  let headers := MDM.get_headers B auth env url
  let req : APIRequest :=
    { method := method, url := url, headers := headers, json_body := data,
      files := none, timeout := 90 }
  ([req],
    match transport req with
    | HTTPOutcome.response status text =>
        if 400 ≤ status ∧ status < 600 then
          Except.error { message := "API request to " ++ url ++ " failed",
                         status_code := some status }
        else
          Except.ok (if text = "" then JsonVal.obj [] else parse_json text)
    | HTTPOutcome.connectionError =>
        Except.error { message := "API request to " ++ url ++ " failed",
                       status_code := none })

/-! ## The retry-enabled Dispatcher variant (System)

`System.__init__` mounts an `HTTPAdapter` with
`Retry(total=3, backoff_factor=1, status_forcelist=[500, 502, 503, 504])`
on its session. The urllib3 status-retry loop is modelled by
`sessionSend`: an attempt whose status is in the forcelist is retried
while retry budget remains; an attempt that exhausts the budget
surfaces as a transport-level error with no response (urllib3
`MaxRetryError`, requests `RetryError`). -/

/-- The `urllib3.util.retry.Retry` configuration values that
`System.__init__` sets. -/
structure Retry where
  total : Nat
  backoff_factor : Nat
  status_forcelist : List Nat
deriving Repr, DecidableEq

/-- urllib3's status check: a response status triggers a retry exactly
when it is in the configured `status_forcelist`. -/
def Retry.shouldRetryStatus (r : Retry) (status : Nat) : Bool :=
  r.status_forcelist.contains status

/-- The retry loop: `fuel` is the remaining retry budget, `i` the index
of the next physical attempt. Returns the number of attempts issued and
the final outcome. -/
def sessionSendGo (r : Retry) (outcomes : Nat → HTTPOutcome) :
    Nat → Nat → Nat × HTTPOutcome
  | fuel, i =>
    match fuel, outcomes i with
    | _, HTTPOutcome.connectionError => (i + 1, HTTPOutcome.connectionError)
    | 0, HTTPOutcome.response s t =>
        if r.shouldRetryStatus s then (i + 1, HTTPOutcome.connectionError)
        else (i + 1, HTTPOutcome.response s t)
    | f + 1, HTTPOutcome.response s t =>
        if r.shouldRetryStatus s then sessionSendGo r outcomes f (i + 1)
        else (i + 1, HTTPOutcome.response s t)

/-- One `Session.request` call under the configured status retries:
up to `1 + r.total` physical attempts. -/
def sessionSend (r : Retry) (outcomes : Nat → HTTPOutcome) : Nat × HTTPOutcome :=
  sessionSendGo r outcomes r.total 0

/-- The state of a `System` object after a successful `__init__`. -/
structure SystemState where
  auth : WorkspaceOneAuth
  api_url : PyVal
  tenant_code : PyVal
  environment : PyVal
  session_retries : Retry
deriving Repr, DecidableEq

/-- The body of `System.__init__` run against an arbitrary attribute
dictionary for the environment argument: fetch `api_url`, `tenant_code`
and `environment` from it in order (each read can raise
`AttributeError`), then configure the session with
`Retry(total=3, backoff_factor=1, status_forcelist=[500, 502, 503, 504])`. -/
def System.initFromDict (workspaceOneAuth : WorkspaceOneAuth)
    (dict : List (String × PyVal)) : Except AttributeError SystemState :=
  match pyGetattr dict "api_url" with
  | Except.error e => Except.error e
  | Except.ok api_url =>
      match pyGetattr dict "tenant_code" with
      | Except.error e => Except.error e
      | Except.ok tenant_code =>
          match pyGetattr dict "environment" with
          | Except.error e => Except.error e
          | Except.ok environment =>
              Except.ok { auth := workspaceOneAuth, api_url := api_url,
                          tenant_code := tenant_code, environment := environment,
                          session_retries :=
                            { total := 3, backoff_factor := 1,
                              status_forcelist := [500, 502, 503, 504] } }

/-- `System.__init__(awEnviroment, workspaceOneAuth)` with an
`AWEnvironment` argument. -/
def System.init (awEnviroment : AWEnvironment) (workspaceOneAuth : WorkspaceOneAuth) :
    Except AttributeError SystemState :=
  System.initFromDict workspaceOneAuth (AWEnvironment.objectDict awEnviroment)

/-- `System._get_headers(url)` (uses `self.tenant_code`). -/
def System.get_headers (B : CryptoBackend) (auth : WorkspaceOneAuth)
    (tenant_code : String) (url : String) : List (String × Option String) :=
  [("Authorization", WorkspaceOneAuth.get_cmsurl_header auth B url),
   ("aw-tenant-code", some tenant_code),
   ("Content-Type", some "application/json")]

/-- `System._send_request(method, url, json_data)`: like MDM's, but the
request goes through the retrying session; the issued request list
repeats the request once per physical attempt. -/
def System.send_request (B : CryptoBackend) (auth : WorkspaceOneAuth)
    (tenant_code : String) (retries : Retry) (outcomes : Nat → HTTPOutcome)
    (parse_json : String → JsonVal) (method : String) (url : String)
    (json_data : Option JsonVal) :
    List APIRequest × Except APIRequestError JsonVal :=
  let headers := System.get_headers B auth tenant_code url
  let req : APIRequest :=
    { method := method, url := url, headers := headers, json_body := json_data,
      files := none, timeout := 90 }
  let attempt_outcome := sessionSend retries outcomes
  (List.replicate attempt_outcome.1 req,
    match attempt_outcome.2 with
    | HTTPOutcome.response status text =>
        if 400 ≤ status ∧ status < 600 then
          Except.error { message := "API request to " ++ url ++ " failed",
                         status_code := some status }
        else
          Except.ok (if text = "" then JsonVal.obj [] else parse_json text)
    | HTTPOutcome.connectionError =>
        Except.error { message := "API request to " ++ url ++ " failed",
                       status_code := none })

/-! ## The MAM Dispatcher variant -/

/-- `MAM._get_headers(url)` (uses `self.tenant_code`). -/
def MAM.get_headers (B : CryptoBackend) (auth : WorkspaceOneAuth)
    (tenant_code : String) (url : String) : List (String × Option String) :=
  [("Authorization", WorkspaceOneAuth.get_cmsurl_header auth B url),
   ("aw-tenant-code", some tenant_code),
   ("Content-Type", some "application/json")]

/-- `MAM._send_request(method, url, json_data, files)`: one unpooled
request with timeout 90; on failure it raises `APIRequestError(str(e))`
— note: without passing the status code. `exc_str` renders `str(e)`. -/
def MAM.send_request (B : CryptoBackend) (auth : WorkspaceOneAuth)
    (tenant_code : String) (transport : APIRequest → HTTPOutcome)
    (parse_json : String → JsonVal) (exc_str : HTTPOutcome → String)
    (method : String) (url : String) (json_data : Option JsonVal)
    (files : Option (List (String × List Nat))) :
    List APIRequest × Except APIRequestError JsonVal :=
  let headers := MAM.get_headers B auth tenant_code url
  let req : APIRequest :=
    { method := method, url := url, headers := headers, json_body := json_data,
      files := files, timeout := 90 }
  ([req],
    match transport req with
    | HTTPOutcome.response status text =>
        if 400 ≤ status ∧ status < 600 then
          Except.error { message := exc_str (HTTPOutcome.response status text),
                         status_code := none }
        else
          Except.ok (if text = "" then JsonVal.obj [] else parse_json text)
    | HTTPOutcome.connectionError =>
        Except.error { message := exc_str HTTPOutcome.connectionError,
                       status_code := none })

/-! ## The duplicated event-notification method

`system/system.py` defines `create_event_notification_rule` twice (lines
1434 and 1468). In a Python class body, a later `def` of the same name
rebinds the class-dictionary entry, so only the second definition is
reachable. `classDict` models sequential class-body binding. -/

/-- Tags for the two class-body definitions named
`create_event_notification_rule`. -/
inductive ENRuleDef where
  | legacy
  | v1
deriving Repr, DecidableEq

/-- The HTTP method both definitions dispatch with. -/
def ENRuleDef.http_method : ENRuleDef → String
  | _ => "POST"

/-- The URL each definition builds from `self.api_url`. -/
def ENRuleDef.url (d : ENRuleDef) (api_url : String) : String :=
  match d with
  | ENRuleDef.legacy => api_url ++ "/system/eventnotifications"
  | ENRuleDef.v1 => api_url ++ "/system/eventnotifications/V1/eventnotifications"

/-- The class-body statements of `System` binding the name
`create_event_notification_rule`, in source order (line 1434, then line
1468). -/
def System.event_notification_rule_defs : List (String × ENRuleDef) :=
  [("create_event_notification_rule", ENRuleDef.legacy),
   ("create_event_notification_rule", ENRuleDef.v1)]

/-- Sequential execution of class-body bindings: each `def` rebinds its
name; lookup sees the latest binding. -/
def classDict (body : List (String × α)) : String → Option α :=
  body.foldl (fun d kv => fun n => if n = kv.1 then some kv.2 else d n) (fun _ => none)

/-! ## Concrete fixtures

Sample backends, environments and authenticators used to evaluate the
embedding on closed inputs. -/

/-- A backend on which certificate loading and signing succeed. -/
def okBackend : CryptoBackend :=
  { readFile := fun _ => Except.ok [48, 130, 1, 0],
    load_key_and_certificates := fun _ _ => Except.ok (some 10, some 20, some []),
    pkcs7_sign := fun _ _ _ _ _ _ => Except.ok [100, 101, 255] }

/-- A backend on which loading the PKCS#12 bundle raises (missing file,
and wrong password for in-memory data). -/
def badLoadBackend : CryptoBackend :=
  { readFile := fun _ => Except.error "No such file or directory",
    load_key_and_certificates := fun _ _ => Except.error "Invalid password or corrupt data",
    pkcs7_sign := fun _ _ _ _ _ _ => Except.ok [0] }

/-- A sample environment configuration. -/
def envA : AWEnvironment :=
  { api_url := "https://host/api", tenant_code := "tcode", parent_og := none }

/-- A sample authenticator whose certificate loads on `okBackend`. -/
def authA : WorkspaceOneAuth := WorkspaceOneAuth.init "client.p12" "secret"

/-- An authenticator configured with credentials that fail to load. -/
def authMissing : WorkspaceOneAuth :=
  WorkspaceOneAuth.init "does-not-exist.p12" "wrong-password"

/-- A sample rendering of `str(e)` for a `requests` exception. -/
def excStrA : HTTPOutcome → String
  | HTTPOutcome.response s _ => "HTTPError: status " ++ toString s
  | HTTPOutcome.connectionError => "ConnectionError"

/-! ## Helper lemmas on the retry loop -/

/-- The retry loop issues at least one physical attempt. -/
theorem sessionSendGo_fst_ge (r : Retry) (outcomes : Nat → HTTPOutcome) :
    ∀ fuel i : Nat, i + 1 ≤ (sessionSendGo r outcomes fuel i).1 := by
  intro fuel
  induction fuel with
  | zero =>
      intro i
      unfold sessionSendGo
      cases outcomes i with
      | response s t =>
          by_cases hr : r.shouldRetryStatus s = true <;> simp [hr]
      | connectionError => simp
  | succ f ih =>
      intro i
      unfold sessionSendGo
      cases outcomes i with
      | response s t =>
          by_cases hr : r.shouldRetryStatus s = true
          · simp only [hr, if_pos]
            have := ih (i + 1)
            omega
          · simp [hr]
      | connectionError => simp

/-- The retry loop issues at most one initial attempt plus `fuel`
retries. -/
theorem sessionSendGo_fst_le (r : Retry) (outcomes : Nat → HTTPOutcome) :
    ∀ fuel i : Nat, (sessionSendGo r outcomes fuel i).1 ≤ i + 1 + fuel := by
  intro fuel
  induction fuel with
  | zero =>
      intro i
      unfold sessionSendGo
      cases outcomes i with
      | response s t =>
          by_cases hr : r.shouldRetryStatus s = true <;> simp [hr]
      | connectionError => simp
  | succ f ih =>
      intro i
      unfold sessionSendGo
      cases outcomes i with
      | response s t =>
          by_cases hr : r.shouldRetryStatus s = true
          · simp only [hr, if_pos]
            have := ih (i + 1)
            omega
          · simp [hr]
      | connectionError => simp

/-! ## Claim theorems -/

/-- C8: constructing `AWEnvironment` raises `ValueError` whenever
`api_url` or `tenant_code` is empty; when both are non-empty it succeeds
and stores `api_url`, `tenant_code` and `parent_og` unchanged. -/
theorem c8_aw_environment_init (api_url tenant_code : String) (parent_og : Option String) :
    ((api_url = "" ∨ tenant_code = "") →
      AWEnvironment.init api_url tenant_code parent_og
        = Except.error { message := "Both \x27api_url\x27 and \x27tenant_code\x27 are required." }) ∧
    (api_url ≠ "" → tenant_code ≠ "" →
      AWEnvironment.init api_url tenant_code parent_og
        = Except.ok { api_url := api_url, tenant_code := tenant_code, parent_og := parent_og }) := by
  constructor
  · intro h
    unfold AWEnvironment.init
    rw [if_pos h]
  · intro h1 h2
    unfold AWEnvironment.init
    rw [if_neg (by tauto)]

/-- Witness for C8 at concrete inputs: an empty `api_url` fails, a fully
populated configuration is stored unchanged. -/
theorem c8_aw_environment_init_witness :
    AWEnvironment.init "" "tcode" none
      = Except.error { message := "Both \x27api_url\x27 and \x27tenant_code\x27 are required." } ∧
    AWEnvironment.init "https://host/api" "tcode" (some "577")
      = Except.ok { api_url := "https://host/api", tenant_code := "tcode",
                    parent_og := some "577" } :=
  ⟨(c8_aw_environment_init "" "tcode" none).1 (Or.inl rfl),
   (c8_aw_environment_init "https://host/api" "tcode" (some "577")).2
     (by decide) (by decide)⟩

/-- C10: constructing `System` with any `AWEnvironment` the library's
own constructor can produce raises `AttributeError`, because
`System.__init__` reads the attribute `environment`, which
`AWEnvironment.__init__` never assigns. -/
theorem c10_system_init_attribute_error (api_url tenant_code : String)
    (parent_og : Option String) (env : AWEnvironment) (auth : WorkspaceOneAuth)
    (hmk : AWEnvironment.init api_url tenant_code parent_og = Except.ok env) :
    System.init env auth = Except.error { name := "environment" } := by
  rfl

/-- Witness for C10: a concretely constructed environment makes
`System.__init__` raise. -/
theorem c10_system_init_attribute_error_witness :
    AWEnvironment.init "https://host/api" "tcode" none = Except.ok envA ∧
    System.init envA authA = Except.error { name := "environment" } :=
  ⟨rfl, c10_system_init_attribute_error "https://host/api" "tcode" none envA authA rfl⟩

/-- C9: the class body of `System` binds `create_event_notification_rule`
twice; the versioned definition (line 1468) overrides the legacy one
(line 1434), so the resolved method posts to the V1 path and the
legacy-path definition is not reachable by name. -/
theorem c9_event_notification_override (api_url : String) :
    classDict System.event_notification_rule_defs "create_event_notification_rule"
      = some ENRuleDef.v1 ∧
    ENRuleDef.url ENRuleDef.v1 api_url
      = api_url ++ "/system/eventnotifications/V1/eventnotifications" ∧
    ENRuleDef.http_method ENRuleDef.v1 = "POST" ∧
    ENRuleDef.url ENRuleDef.legacy api_url ≠ ENRuleDef.url ENRuleDef.v1 api_url ∧
    (∀ n, classDict System.event_notification_rule_defs n ≠ some ENRuleDef.legacy) := by
  refine ⟨rfl, rfl, rfl, ?_, ?_⟩
  · intro h
    have h2 := congrArg String.length h
    have hl : ("/system/eventnotifications" : String).length = 26 := rfl
    have hv : ("/system/eventnotifications/V1/eventnotifications" : String).length = 48 := rfl
    rw [ENRuleDef.url, ENRuleDef.url, String.length_append, String.length_append,
        hl, hv] at h2
    omega
  · intro n h
    by_cases hc : n = "create_event_notification_rule" <;>
      simp [classDict, System.event_notification_rule_defs, hc] at h

/-- C2: whenever certificate loading yields a key and certificate and
the PKCS7 builder succeeds, `get_cmsurl_header` returns exactly the
literal tag followed by the base64 encoding of the DER-encoded detached
PKCS#7/CMS container signed over the UTF-8 bytes of the URL's path with
a SHA-512 digest. -/
theorem c2_header_format (B : CryptoBackend) (auth : WorkspaceOneAuth) (url : String)
    (pk cert : Nat) (container : List Nat)
    (hload : WorkspaceOneAuth.load_p12_cert auth B auth.cert_path auth.cert_pw
      = Except.ok (some pk, some cert))
    (hsign : B.pkcs7_sign pk cert HashAlg.sha512 (strUtf8 (urlparse url).path)
        SigEncoding.der [PKCS7Option.detachedSignature] = Except.ok container) :
    WorkspaceOneAuth.get_cmsurl_header auth B url
      = some ("CMSURL`1 " ++ base64Encode container) := by
  simp only [WorkspaceOneAuth.get_cmsurl_header, WorkspaceOneAuth.sign_data,
    hload, hsign]

/-- Witness for C2: on a concrete backend and URL the header is the tag
followed by the base64 encoding of the container the signer produced. -/
theorem c2_header_format_witness :
    WorkspaceOneAuth.get_cmsurl_header authA okBackend "https://host/a/b?x=1"
      = some ("CMSURL`1 " ++ base64Encode [100, 101, 255]) :=
  c2_header_format okBackend authA "https://host/a/b?x=1" 10 20 [100, 101, 255] rfl rfl

/-- C3: the canonical signing input of `get_cmsurl_header` is the parsed
URL's path component only, so two URLs with equal paths — regardless of
scheme, host or query string — produce the same signed bytes and the
same header. -/
theorem c3_signing_ignores_query (B : CryptoBackend) (auth : WorkspaceOneAuth)
    (u1 u2 : String) (hpath : (urlparse u1).path = (urlparse u2).path) :
    strUtf8 (urlparse u1).path = strUtf8 (urlparse u2).path ∧
    WorkspaceOneAuth.get_cmsurl_header auth B u1
      = WorkspaceOneAuth.get_cmsurl_header auth B u2 := by
  refine ⟨by rw [hpath], ?_⟩
  unfold WorkspaceOneAuth.get_cmsurl_header
  rw [hpath]

/-- Witness for C3: the two spec URLs differing only in the query parse
to the canonical path `/a/b` and yield identical headers. -/
theorem c3_signing_ignores_query_witness :
    (urlparse "https://host/a/b?x=1").path = "/a/b" ∧
    (urlparse "https://host/a/b?x=2").path = "/a/b" ∧
    WorkspaceOneAuth.get_cmsurl_header authA okBackend "https://host/a/b?x=1"
      = WorkspaceOneAuth.get_cmsurl_header authA okBackend "https://host/a/b?x=2" :=
  ⟨rfl, rfl,
   (c3_signing_ignores_query okBackend authA "https://host/a/b?x=1"
     "https://host/a/b?x=2" rfl).2⟩

/-- C4: when loading the PKCS#12 bundle raises `CMSURLError`,
`get_cmsurl_header` returns `None`, and the result does not depend on
the signing primitive at all — the signing step is never attempted. -/
theorem c4_certificate_error_aborts (B : CryptoBackend) (auth : WorkspaceOneAuth)
    (url : String) (err : CMSURLError)
    (hload : WorkspaceOneAuth.load_p12_cert auth B auth.cert_path auth.cert_pw
      = Except.error err) :
    WorkspaceOneAuth.get_cmsurl_header auth B url = none ∧
    (∀ signF, WorkspaceOneAuth.get_cmsurl_header auth
        { readFile := B.readFile,
          load_key_and_certificates := B.load_key_and_certificates,
          pkcs7_sign := signF } url = none) := by
  constructor
  · simp only [WorkspaceOneAuth.get_cmsurl_header, hload]
  · intro signF
    have hload2 : WorkspaceOneAuth.load_p12_cert auth
        { readFile := B.readFile,
          load_key_and_certificates := B.load_key_and_certificates,
          pkcs7_sign := signF } auth.cert_path auth.cert_pw = Except.error err := hload
    simp only [WorkspaceOneAuth.get_cmsurl_header, hload2]

/-- Witness for C4: a missing certificate file yields a `CMSURLError`
from the load step and a `None` header, for any signing primitive. -/
theorem c4_certificate_error_aborts_witness :
    WorkspaceOneAuth.load_p12_cert authMissing badLoadBackend
        authMissing.cert_path authMissing.cert_pw
      = Except.error { message :=
          "Failed to load PKCS#12 certificate: No such file or directory" } ∧
    WorkspaceOneAuth.get_cmsurl_header authMissing badLoadBackend
        "https://host/api/system/info" = none :=
  ⟨rfl,
   (c4_certificate_error_aborts badLoadBackend authMissing
     "https://host/api/system/info"
     { message := "Failed to load PKCS#12 certificate: No such file or directory" }
     rfl).1⟩

/-- C1 counterexample: at a concrete input the Authenticator step fails
(`get_cmsurl_header` is `None`), yet `MDM._send_request` still hands a
request to the transport — with `Authorization` bound to the `None`
sentinel — so a request does reach the transport layer. -/
theorem c1_counterexample :
    WorkspaceOneAuth.get_cmsurl_header authMissing badLoadBackend
        "https://host/api/mdm/devices" = none ∧
    (MDM.send_request badLoadBackend authMissing envA
        (fun _ => HTTPOutcome.response 200 "") (fun _ => JsonVal.null)
        "GET" "https://host/api/mdm/devices" none).1
      = [{ method := "GET", url := "https://host/api/mdm/devices",
           headers := [("Authorization", none), ("aw-tenant-code", some "tcode"),
                       ("Content-Type", some "application/json")],
           json_body := none, files := none, timeout := 90 }] :=
  ⟨rfl, rfl⟩

/-- C1 amended: when the Authenticator step fails, each Dispatcher
variant still issues its HTTP request — MDM and MAM exactly one, System
at least one — and every issued request carries `Authorization` bound to
the `None` sentinel instead of a signed header. -/
theorem c1_amended_dispatch_without_auth (B : CryptoBackend) (auth : WorkspaceOneAuth)
    (env : AWEnvironment) (tenant_code : String) (retries : Retry)
    (transport : APIRequest → HTTPOutcome) (outcomes : Nat → HTTPOutcome)
    (parse_json : String → JsonVal) (exc_str : HTTPOutcome → String)
    (method url : String) (data : Option JsonVal)
    (files : Option (List (String × List Nat)))
    (hfail : WorkspaceOneAuth.get_cmsurl_header auth B url = none) :
    (MDM.send_request B auth env transport parse_json method url data).1
      = [{ method := method, url := url,
           headers := [("Authorization", none), ("aw-tenant-code", some env.tenant_code),
                       ("Content-Type", some "application/json")],
           json_body := data, files := none, timeout := 90 }] ∧
    (MAM.send_request B auth tenant_code transport parse_json exc_str
        method url data files).1
      = [{ method := method, url := url,
           headers := [("Authorization", none), ("aw-tenant-code", some tenant_code),
                       ("Content-Type", some "application/json")],
           json_body := data, files := files, timeout := 90 }] ∧
    1 ≤ (System.send_request B auth tenant_code retries outcomes parse_json
          method url data).1.length ∧
    (∀ r ∈ (System.send_request B auth tenant_code retries outcomes parse_json
          method url data).1,
        r.headers = [("Authorization", none), ("aw-tenant-code", some tenant_code),
                     ("Content-Type", some "application/json")]) := by
  refine ⟨?_, ?_, ?_, ?_⟩
  · simp [MDM.send_request, MDM.get_headers, hfail]
  · simp [MAM.send_request, MAM.get_headers, hfail]
  · simp only [System.send_request, List.length_replicate]
    exact sessionSendGo_fst_ge retries outcomes retries.total 0
  · intro r hr
    simp only [System.send_request] at hr
    have := List.eq_of_mem_replicate hr
    rw [this]
    simp [System.get_headers, hfail]

/-- Witness for the amended C1: a failing Authenticator on concrete
dispatch calls still produces issued requests, all unauthenticated. -/
theorem c1_amended_dispatch_without_auth_witness :
    (MAM.send_request badLoadBackend authMissing "tcode"
        (fun _ => HTTPOutcome.response 200 "{}") (fun _ => JsonVal.null) excStrA
        "POST" "https://host/api/mam/apps/internal/1/retire" none none).1
      = [{ method := "POST", url := "https://host/api/mam/apps/internal/1/retire",
           headers := [("Authorization", none), ("aw-tenant-code", some "tcode"),
                       ("Content-Type", some "application/json")],
           json_body := none, files := none, timeout := 90 }] ∧
    1 ≤ (System.send_request badLoadBackend authMissing "tcode"
          { total := 3, backoff_factor := 1, status_forcelist := [500, 502, 503, 504] }
          (fun _ => HTTPOutcome.response 200 "{}") (fun _ => JsonVal.null)
          "GET" "https://host/api/system/info" none).1.length :=
  ⟨(c1_amended_dispatch_without_auth badLoadBackend authMissing envA "tcode"
      { total := 3, backoff_factor := 1, status_forcelist := [500, 502, 503, 504] }
      (fun _ => HTTPOutcome.response 200 "{}") (fun _ => HTTPOutcome.response 200 "{}")
      (fun _ => JsonVal.null) excStrA
      "POST" "https://host/api/mam/apps/internal/1/retire" none none rfl).2.1,
   (c1_amended_dispatch_without_auth badLoadBackend authMissing envA "tcode"
      { total := 3, backoff_factor := 1, status_forcelist := [500, 502, 503, 504] }
      (fun _ => HTTPOutcome.response 200 "{}") (fun _ => HTTPOutcome.response 200 "{}")
      (fun _ => JsonVal.null) excStrA
      "GET" "https://host/api/system/info" none none rfl).2.2.1⟩

/-- C5 counterexample: `MAM._send_request` on an HTTP 404 response — a
case where the status code is available — raises `APIRequestError`
without the status code (it passes only `str(e)`), so not every
dispatched request carries the status code when available. -/
theorem c5_counterexample :
    (MAM.send_request okBackend authA "tcode"
        (fun _ => HTTPOutcome.response 404 "Not Found") (fun _ => JsonVal.null)
        excStrA "GET" "https://host/api/mam/apps/internal/7" none none).2
      = Except.error { message := "HTTPError: status 404", status_code := none } :=
  rfl

/-- C5 amended: on a success status every variant returns the parsed
body (the empty mapping for an empty body); on a non-success status or
transport failure MDM and System raise `APIRequestError` carrying the
status code when available — MDM carries the response's status, System
carries the status of the final response its retry loop yields (also
for the retried statuses 500/502/503/504) and surfaces transport
failures and retry exhaustion with no status code, since no response is
available — while MAM raises `APIRequestError` with no status code even
when one is available. -/
theorem c5_amended_dispatch_contract (B : CryptoBackend) (auth : WorkspaceOneAuth)
    (env : AWEnvironment) (tenant_code : String) (retries : Retry)
    (outcomes : Nat → HTTPOutcome)
    (parse_json : String → JsonVal) (exc_str : HTTPOutcome → String)
    (method url : String) (data : Option JsonVal)
    (files : Option (List (String × List Nat))) (status : Nat) (text : String) :
    (¬(400 ≤ status ∧ status < 600) →
      (MDM.send_request B auth env (fun _ => HTTPOutcome.response status text)
          parse_json method url data).2
        = Except.ok (if text = "" then JsonVal.obj [] else parse_json text)) ∧
    (400 ≤ status → status < 600 →
      (MDM.send_request B auth env (fun _ => HTTPOutcome.response status text)
          parse_json method url data).2
        = Except.error { message := "API request to " ++ url ++ " failed",
                         status_code := some status }) ∧
    ((MDM.send_request B auth env (fun _ => HTTPOutcome.connectionError)
          parse_json method url data).2
        = Except.error { message := "API request to " ++ url ++ " failed",
                         status_code := none }) ∧
    (¬(400 ≤ status ∧ status < 600) →
      (MAM.send_request B auth tenant_code (fun _ => HTTPOutcome.response status text)
          parse_json exc_str method url data files).2
        = Except.ok (if text = "" then JsonVal.obj [] else parse_json text)) ∧
    (400 ≤ status → status < 600 →
      (MAM.send_request B auth tenant_code (fun _ => HTTPOutcome.response status text)
          parse_json exc_str method url data files).2
        = Except.error { message := exc_str (HTTPOutcome.response status text),
                         status_code := none }) ∧
    (retries.shouldRetryStatus status = false → ¬(400 ≤ status ∧ status < 600) →
      (System.send_request B auth tenant_code retries
          (fun _ => HTTPOutcome.response status text) parse_json method url data).2
        = Except.ok (if text = "" then JsonVal.obj [] else parse_json text)) ∧
    (retries.shouldRetryStatus status = false → 400 ≤ status → status < 600 →
      (System.send_request B auth tenant_code retries
          (fun _ => HTTPOutcome.response status text) parse_json method url data).2
        = Except.error { message := "API request to " ++ url ++ " failed",
                         status_code := some status }) ∧
    ((MAM.send_request B auth tenant_code (fun _ => HTTPOutcome.connectionError)
          parse_json exc_str method url data files).2
        = Except.error { message := exc_str HTTPOutcome.connectionError,
                         status_code := none }) ∧
    ((System.send_request B auth tenant_code retries
          (fun _ => HTTPOutcome.connectionError) parse_json method url data).2
        = Except.error { message := "API request to " ++ url ++ " failed",
                         status_code := none }) ∧
    (∀ n s2 t2, sessionSend retries outcomes = (n, HTTPOutcome.response s2 t2) →
      (¬(400 ≤ s2 ∧ s2 < 600) →
        (System.send_request B auth tenant_code retries outcomes parse_json
            method url data).2
          = Except.ok (if t2 = "" then JsonVal.obj [] else parse_json t2)) ∧
      (400 ≤ s2 → s2 < 600 →
        (System.send_request B auth tenant_code retries outcomes parse_json
            method url data).2
          = Except.error { message := "API request to " ++ url ++ " failed",
                           status_code := some s2 })) ∧
    ((sessionSend retries outcomes).2 = HTTPOutcome.connectionError →
      (System.send_request B auth tenant_code retries outcomes parse_json
          method url data).2
        = Except.error { message := "API request to " ++ url ++ " failed",
                         status_code := none }) := by
  have hsys : ∀ h : retries.shouldRetryStatus status = false,
      sessionSend retries (fun _ => HTTPOutcome.response status text)
        = (1, HTTPOutcome.response status text) := by
    intro h
    unfold sessionSend sessionSendGo
    cases htot : retries.total <;> simp [h]
  have hconn1 : sessionSend retries (fun _ => HTTPOutcome.connectionError)
      = (1, HTTPOutcome.connectionError) := by
    unfold sessionSend sessionSendGo
    cases htot : retries.total <;> simp
  refine ⟨?_, ?_, ?_, ?_, ?_, ?_, ?_, ?_, ?_, ?_, ?_⟩
  · intro h
    simp [MDM.send_request, h]
  · intro h1 h2
    simp [MDM.send_request, h1, h2]
  · simp [MDM.send_request]
  · intro h
    simp [MAM.send_request, h]
  · intro h1 h2
    simp [MAM.send_request, h1, h2]
  · intro hs h
    simp [System.send_request, hsys hs, h]
  · intro hs h1 h2
    simp [System.send_request, hsys hs, h1, h2]
  · simp [MAM.send_request]
  · simp [System.send_request, hconn1]
  · intro n s2 t2 hsend
    constructor
    · intro h
      simp [System.send_request, hsend, h]
    · intro h1 h2
      simp [System.send_request, hsend, h1, h2]
  · intro hconn
    simp [System.send_request, hconn]

/-- Witness for the amended C5: concrete success with empty body,
concrete MDM 404 error carrying the code, concrete MAM 404 error
without it, MAM and System transport failures without a code, System
recovering a 200 after three retried 503s, and System surfacing four
consecutive 503s (retry exhaustion) without a code. -/
theorem c5_amended_dispatch_contract_witness :
    (MDM.send_request okBackend authA envA (fun _ => HTTPOutcome.response 200 "")
        (fun _ => JsonVal.null) "GET" "https://host/api/x" none).2
      = Except.ok (JsonVal.obj []) ∧
    (MDM.send_request okBackend authA envA (fun _ => HTTPOutcome.response 404 "nf")
        (fun _ => JsonVal.null) "GET" "https://host/api/x" none).2
      = Except.error { message := "API request to https://host/api/x failed",
                       status_code := some 404 } ∧
    (MAM.send_request okBackend authA "tcode" (fun _ => HTTPOutcome.response 404 "nf")
        (fun _ => JsonVal.null) excStrA "GET" "https://host/api/x" none none).2
      = Except.error { message := "HTTPError: status 404", status_code := none } ∧
    (MAM.send_request okBackend authA "tcode" (fun _ => HTTPOutcome.connectionError)
        (fun _ => JsonVal.null) excStrA "GET" "https://host/api/x" none none).2
      = Except.error { message := "ConnectionError", status_code := none } ∧
    (System.send_request okBackend authA "tcode"
        { total := 3, backoff_factor := 1, status_forcelist := [500, 502, 503, 504] }
        (fun _ => HTTPOutcome.connectionError)
        (fun _ => JsonVal.null) "GET" "https://host/api/x" none).2
      = Except.error { message := "API request to https://host/api/x failed",
                       status_code := none } ∧
    (System.send_request okBackend authA "tcode"
        { total := 3, backoff_factor := 1, status_forcelist := [500, 502, 503, 504] }
        (fun i => if i < 3 then HTTPOutcome.response 503 "unavailable"
                  else HTTPOutcome.response 200 "ok")
        (fun _ => JsonVal.null) "GET" "https://host/api/x" none).2
      = Except.ok JsonVal.null ∧
    (System.send_request okBackend authA "tcode"
        { total := 3, backoff_factor := 1, status_forcelist := [500, 502, 503, 504] }
        (fun _ => HTTPOutcome.response 503 "unavailable")
        (fun _ => JsonVal.null) "GET" "https://host/api/x" none).2
      = Except.error { message := "API request to https://host/api/x failed",
                       status_code := none } := by
  refine ⟨?_, ?_, ?_, ?_, ?_, ?_, ?_⟩
  · have h := (c5_amended_dispatch_contract okBackend authA envA "tcode"
      { total := 3, backoff_factor := 1, status_forcelist := [500, 502, 503, 504] }
      (fun _ => HTTPOutcome.connectionError)
      (fun _ => JsonVal.null) excStrA "GET" "https://host/api/x" none none
      200 "").1 (by omega)
    simpa using h
  · exact (c5_amended_dispatch_contract okBackend authA envA "tcode"
      { total := 3, backoff_factor := 1, status_forcelist := [500, 502, 503, 504] }
      (fun _ => HTTPOutcome.connectionError)
      (fun _ => JsonVal.null) excStrA "GET" "https://host/api/x" none none
      404 "nf").2.1 (by omega) (by omega)
  · exact (c5_amended_dispatch_contract okBackend authA envA "tcode"
      { total := 3, backoff_factor := 1, status_forcelist := [500, 502, 503, 504] }
      (fun _ => HTTPOutcome.connectionError)
      (fun _ => JsonVal.null) excStrA "GET" "https://host/api/x" none none
      404 "nf").2.2.2.2.1 (by omega) (by omega)
  · exact (c5_amended_dispatch_contract okBackend authA envA "tcode"
      { total := 3, backoff_factor := 1, status_forcelist := [500, 502, 503, 504] }
      (fun _ => HTTPOutcome.connectionError)
      (fun _ => JsonVal.null) excStrA "GET" "https://host/api/x" none none
      404 "nf").2.2.2.2.2.2.2.1
  · exact (c5_amended_dispatch_contract okBackend authA envA "tcode"
      { total := 3, backoff_factor := 1, status_forcelist := [500, 502, 503, 504] }
      (fun _ => HTTPOutcome.connectionError)
      (fun _ => JsonVal.null) excStrA "GET" "https://host/api/x" none none
      404 "nf").2.2.2.2.2.2.2.2.1
  · have h := ((c5_amended_dispatch_contract okBackend authA envA "tcode"
      { total := 3, backoff_factor := 1, status_forcelist := [500, 502, 503, 504] }
      (fun i => if i < 3 then HTTPOutcome.response 503 "unavailable"
                else HTTPOutcome.response 200 "ok")
      (fun _ => JsonVal.null) excStrA "GET" "https://host/api/x" none none
      404 "nf").2.2.2.2.2.2.2.2.2.1 4 200 "ok" rfl).1 (by omega)
    rw [if_neg (by decide)] at h
    exact h
  · exact (c5_amended_dispatch_contract okBackend authA envA "tcode"
      { total := 3, backoff_factor := 1, status_forcelist := [500, 502, 503, 504] }
      (fun _ => HTTPOutcome.response 503 "unavailable")
      (fun _ => JsonVal.null) excStrA "GET" "https://host/api/x" none none
      404 "nf").2.2.2.2.2.2.2.2.2.2 rfl

/-- C6: `System.__init__` configures the session with
`Retry(total=3, backoff_factor=1, status_forcelist=[500, 502, 503, 504])`;
statuses in [400, 500) are never retried; the retry loop issues at most
`1 + total` physical attempts; and every Dispatcher variant issues each
HTTP request with timeout 90. -/
theorem c6_retry_config_and_timeout (auth0 : WorkspaceOneAuth)
    (dict : List (String × PyVal)) (st : SystemState)
    (outcomes : Nat → HTTPOutcome) (s : Nat)
    (hinit : System.initFromDict auth0 dict = Except.ok st)
    (h4 : 400 ≤ s) (h5 : s < 500) :
    st.session_retries
      = { total := 3, backoff_factor := 1, status_forcelist := [500, 502, 503, 504] } ∧
    st.session_retries.shouldRetryStatus s = false ∧
    (sessionSend st.session_retries outcomes).1 ≤ 1 + st.session_retries.total ∧
    (∀ B auth env transport parse_json method url data,
       ∀ r ∈ (MDM.send_request B auth env transport parse_json method url data).1,
         r.timeout = 90) ∧
    (∀ B auth tenant retries outs parse_json method url data,
       ∀ r ∈ (System.send_request B auth tenant retries outs parse_json
                method url data).1,
         r.timeout = 90) ∧
    (∀ B auth tenant transport parse_json exc_str method url data files,
       ∀ r ∈ (MAM.send_request B auth tenant transport parse_json exc_str
                method url data files).1,
         r.timeout = 90) := by
  have hr : st.session_retries
      = { total := 3, backoff_factor := 1, status_forcelist := [500, 502, 503, 504] } := by
    unfold System.initFromDict at hinit
    cases h1 : pyGetattr dict "api_url" <;> rw [h1] at hinit
    · cases hinit
    cases h2 : pyGetattr dict "tenant_code" <;> rw [h2] at hinit
    · cases hinit
    cases h3 : pyGetattr dict "environment" <;> rw [h3] at hinit
    · cases hinit
    cases hinit
    rfl
  refine ⟨hr, ?_, ?_, ?_, ?_, ?_⟩
  · rw [hr]
    simp only [Retry.shouldRetryStatus]
    have hne : s ≠ 500 ∧ s ≠ 502 ∧ s ≠ 503 ∧ s ≠ 504 := by omega
    simp [hne.1, hne.2.1, hne.2.2.1, hne.2.2.2]
  · have hb := sessionSendGo_fst_le st.session_retries outcomes st.session_retries.total 0
    unfold sessionSend
    omega
  · intro B auth env transport parse_json method url data r hmem
    simp only [MDM.send_request, List.mem_singleton] at hmem
    rw [hmem]
  · intro B auth tenant retries outs parse_json method url data r hmem
    simp only [System.send_request] at hmem
    rw [List.eq_of_mem_replicate hmem]
  · intro B auth tenant transport parse_json exc_str method url data files r hmem
    simp only [MAM.send_request, List.mem_singleton] at hmem
    rw [hmem]

/-- Witness for C6: a dictionary carrying all three attributes makes
`System.__init__` succeed with the stated retry configuration; 404 is
not retried; a persistently failing transport is attempted at most four
times. -/
theorem c6_retry_config_and_timeout_witness :
    System.initFromDict authA
        [("api_url", PyVal.str "https://host/api"), ("tenant_code", PyVal.str "tcode"),
         ("environment", PyVal.str "prod")]
      = Except.ok { auth := authA, api_url := PyVal.str "https://host/api",
                    tenant_code := PyVal.str "tcode", environment := PyVal.str "prod",
                    session_retries :=
                      { total := 3, backoff_factor := 1,
                        status_forcelist := [500, 502, 503, 504] } } ∧
    ({ total := 3, backoff_factor := 1,
       status_forcelist := [500, 502, 503, 504] } : Retry).shouldRetryStatus 404
      = false ∧
    (sessionSend { total := 3, backoff_factor := 1,
                   status_forcelist := [500, 502, 503, 504] }
       (fun _ => HTTPOutcome.response 503 "")).1 ≤ 4 := by
  have h := c6_retry_config_and_timeout authA
    [("api_url", PyVal.str "https://host/api"), ("tenant_code", PyVal.str "tcode"),
     ("environment", PyVal.str "prod")]
    { auth := authA, api_url := PyVal.str "https://host/api",
      tenant_code := PyVal.str "tcode", environment := PyVal.str "prod",
      session_retries :=
        { total := 3, backoff_factor := 1, status_forcelist := [500, 502, 503, 504] } }
    (fun _ => HTTPOutcome.response 503 "") 404 rfl (by omega) (by omega)
  exact ⟨rfl, h.2.1, h.2.2.1⟩

/-- C7 counterexample: constructing `WorkspaceOneAuth` with credentials
that cannot load any certificate succeeds — `__init__` stores them
unexamined — and the failure surfaces only on the first
`get_cmsurl_header` call, which returns `None`. Certificate
configuration errors therefore do not fail fast at construction. -/
theorem c7_counterexample :
    WorkspaceOneAuth.init "does-not-exist.p12" "wrong-password"
      = { cert_path := "does-not-exist.p12", cert_pw := "wrong-password",
          cert_bytes := [], use_memory_cert := false } ∧
    WorkspaceOneAuth.get_cmsurl_header
        (WorkspaceOneAuth.init "does-not-exist.p12" "wrong-password")
        badLoadBackend "https://host/api/x" = none :=
  ⟨rfl, rfl⟩

/-- C7 amended: `AWEnvironment` configuration errors (missing base URL
or tenant code) fail fast at construction with `ValueError`;
`WorkspaceOneAuth.__init__`, by contrast, performs no validation —
construction with unusable certificate credentials succeeds and the
failure surfaces at call time as a `None` header from
`get_cmsurl_header`. -/
theorem c7_amended_validation_split (api_url tenant_code : String)
    (parent_og : Option String) (cert_path cert_pw : String) (B : CryptoBackend)
    (url : String) (err : CMSURLError)
    (hempty : api_url = "" ∨ tenant_code = "")
    (hload : WorkspaceOneAuth.load_p12_cert (WorkspaceOneAuth.init cert_path cert_pw) B
        cert_path cert_pw = Except.error err) :
    AWEnvironment.init api_url tenant_code parent_og
      = Except.error { message := "Both \x27api_url\x27 and \x27tenant_code\x27 are required." } ∧
    WorkspaceOneAuth.init cert_path cert_pw
      = { cert_path := cert_path, cert_pw := cert_pw, cert_bytes := [],
          use_memory_cert := false } ∧
    WorkspaceOneAuth.get_cmsurl_header (WorkspaceOneAuth.init cert_path cert_pw) B url
      = none := by
  refine ⟨?_, rfl, ?_⟩
  · unfold AWEnvironment.init
    rw [if_pos hempty]
  · simp only [WorkspaceOneAuth.get_cmsurl_header, WorkspaceOneAuth.init] at hload ⊢
    simp only [hload]

/-- Witness for the amended C7 at concrete inputs. -/
theorem c7_amended_validation_split_witness :
    AWEnvironment.init "" "tcode" none
      = Except.error { message := "Both \x27api_url\x27 and \x27tenant_code\x27 are required." } ∧
    WorkspaceOneAuth.get_cmsurl_header
        (WorkspaceOneAuth.init "does-not-exist.p12" "bad") badLoadBackend
        "https://host/api/y" = none := by
  have h := c7_amended_validation_split "" "tcode" none "does-not-exist.p12" "bad"
    badLoadBackend "https://host/api/y"
    { message := "Failed to load PKCS#12 certificate: No such file or directory" }
    (Or.inl rfl) rfl
  exact ⟨h.1, h.2.2⟩

/-- Witness for C9 at a concrete base URL: name resolution yields the
versioned definition, never the legacy one. -/
theorem c9_event_notification_override_witness :
    classDict System.event_notification_rule_defs "create_event_notification_rule"
      = some ENRuleDef.v1 ∧
    ENRuleDef.url ENRuleDef.v1 "https://host/api"
      = "https://host/api" ++ "/system/eventnotifications/V1/eventnotifications" ∧
    classDict System.event_notification_rule_defs "create_event_notification_rule"
      ≠ some ENRuleDef.legacy :=
  ⟨(c9_event_notification_override "https://host/api").1,
   (c9_event_notification_override "https://host/api").2.1,
   (c9_event_notification_override "https://host/api").2.2.2.2
     "create_event_notification_rule"⟩
